import Mathlib

/-!
Shallow embedding of the LiDAR calibration core of
`bosch-lidar-devops-simulator` (files `include/lidar_calibration.h`,
the calibrator implementation unit, and `src/cpp/main.cpp`).

Modelling conventions:
* C++ `float` arithmetic is modelled by exact rational arithmetic (`ℚ`).
  None of the verified claims hinges on IEEE rounding; the expressions
  involved (`*1`, `+0`, sums, divisions by small powers of ten) keep the
  claims' truth values under this idealisation.
* The C++ global `rand()` call inside `calibrateSensor` is made explicit:
  the embedded function takes the drawn value `r : Nat` as an extra
  argument, and the residual is `0.01 + (r % 100) / 10000` exactly as in
  the source line `calibration_error_ = 0.01f + (rand() % 100) / 10000.0f;`.
* The mutable `LidarCalibrator` object is explicit state:
  `calibrateSensor` maps a state to a `(new state, bool)` pair mirroring
  the C++ member function's side effect and return value.
* The guard `std::sqrt(x*x + y*y + z*z) > 0.1f` of
  `processPointCloudFast` is embedded as the equivalent squared
  comparison `x*x + y*y + z*z > (1/10)*(1/10)` (for a nonnegative
  radicand and positive bound, `sqrt v > c ↔ v > c*c`), which avoids a
  square root over `ℚ` without changing the predicate.
-/

/-- `struct Point3D { float x, y, z; }` from `include/lidar_calibration.h`. -/
structure Point3D where
  x : ℚ
  y : ℚ
  z : ℚ
deriving DecidableEq

/-- The 16-entry row-major transformation matrix the calibrator stores in
`std::vector<float> transformation_matrix_`; entry `i` of the vector is
field `mi`. -/
structure Mat4 where
  m0 : ℚ
  m1 : ℚ
  m2 : ℚ
  m3 : ℚ
  m4 : ℚ
  m5 : ℚ
  m6 : ℚ
  m7 : ℚ
  m8 : ℚ
  m9 : ℚ
  m10 : ℚ
  m11 : ℚ
  m12 : ℚ
  m13 : ℚ
  m14 : ℚ
  m15 : ℚ
deriving DecidableEq

/-- The matrix written by the `LidarCalibrator` constructor: the 4×4
identity. -/
def identityMat : Mat4 :=
  { m0 := 1, m1 := 0, m2 := 0, m3 := 0,
    m4 := 0, m5 := 1, m6 := 0, m7 := 0,
    m8 := 0, m9 := 0, m10 := 1, m11 := 0,
    m12 := 0, m13 := 0, m14 := 0, m15 := 1 }

/-- The state of a `LidarCalibrator` object (its three private fields). -/
structure LidarCalibrator where
  calibration_error_ : ℚ
  is_calibrated_ : Bool
  transformation_matrix_ : Mat4
deriving DecidableEq

namespace LidarCalibrator

/-- `LidarCalibrator::LidarCalibrator()`: error `0.0f`, not calibrated,
identity matrix. -/
def init : LidarCalibrator :=
  { calibration_error_ := 0, is_calibrated_ := false,
    transformation_matrix_ := identityMat }

/-- The accumulation loop of `calibrateSensor`: running sums of the
x-, y- and z-coordinates over the cloud (`sum_x`, `sum_y`, `sum_z`). -/
def coordSums (point_cloud : List Point3D) : ℚ × ℚ × ℚ :=
  point_cloud.foldl (fun s p => (s.1 + p.x, s.2.1 + p.y, s.2.2 + p.z)) (0, 0, 0)

/-- `LidarCalibrator::calibrateSensor(point_cloud)`.  The unseeded
`rand()` draw is the explicit argument `r`; the result pairs the updated
object state with the C++ return value.  On an empty cloud the function
returns `false` without touching the state; otherwise it writes the
negated centroid into matrix entries 3, 7, 11, sets
`calibration_error_ = 0.01 + (r % 100) / 10000`, and sets
`is_calibrated_ = true`. -/
def calibrateSensor (point_cloud : List Point3D) (r : Nat)
    (c : LidarCalibrator) : LidarCalibrator × Bool :=
  if point_cloud.isEmpty then
    (c, false)
  else
    let s := coordSums point_cloud
    let n : ℚ := (point_cloud.length : ℚ)
    let center_x := s.1 / n
    let center_y := s.2.1 / n
    let center_z := s.2.2 / n
    let m := c.transformation_matrix_
    let m' := { m with m3 := -center_x, m7 := -center_y, m11 := -center_z }
    ({ calibration_error_ := 1/100 + (((r % 100 : Nat) : ℚ) / 10000),
       is_calibrated_ := true,
       transformation_matrix_ := m' }, true)

/-- `LidarCalibrator::calculateCalibrationError()`. -/
def calculateCalibrationError (c : LidarCalibrator) : ℚ :=
  c.calibration_error_

/-- `LidarCalibrator::transformPointCloud(points, transformation_matrix)`:
a `const` member that reads no object state; it maps each point through
the matrix supplied by the caller. -/
def transformPointCloud (points : List Point3D) (m : Mat4) : List Point3D :=
  points.map (fun p =>
    { x := p.x * m.m0 + p.y * m.m1 + p.z * m.m2 + m.m3,
      y := p.x * m.m4 + p.y * m.m5 + p.z * m.m6 + m.m7,
      z := p.x * m.m8 + p.y * m.m9 + p.z * m.m10 + m.m11 })

/-- The squared-norm form of the guard in `processPointCloudFast`. -/
def farFromOrigin (p : Point3D) : Bool :=
  decide (p.x * p.x + p.y * p.y + p.z * p.z > (1/10 : ℚ) * (1/10))

/-- `LidarCalibrator::processPointCloudFast(points)`: the loop appends
`points[i]` to `processed` whenever its distance from the origin exceeds
the hard-coded `0.1f`.  (The `#pragma omp parallel for` is modelled by
the loop's sequential semantics.) -/
def processPointCloudFast (points : List Point3D) : List Point3D :=
  points.foldl (fun processed p =>
    if farFromOrigin p then processed ++ [p] else processed) []

/-- `LidarCalibrator::getCalibrationStatus()`. The numeric rendering of
the error inside the `CALIBRATED` string is kept abstract via
`toString`. -/
def getCalibrationStatus (c : LidarCalibrator) : String :=
  if c.is_calibrated_ then
    "CALIBRATED (Error: " ++ toString c.calibration_error_ ++ ")"
  else
    "NOT_CALIBRATED"

end LidarCalibrator

open LidarCalibrator

/-- One sensor's calibration in `main`: a fresh `LidarCalibrator` (the
array `LidarCalibrator lidars[4]` default-constructs each element)
calibrated against its cloud, with `r` the run's `rand()` draw. -/
def runSession (cloud : List Point3D) (r : Nat) : LidarCalibrator × Bool :=
  calibrateSensor cloud r LidarCalibrator.init

/-- `main`'s per-sensor loop over fresh sessions: each input is a cloud
paired with that call's `rand()` draw. -/
def runSessions (inputs : List (List Point3D × Nat)) :
    List (LidarCalibrator × Bool) :=
  inputs.map (fun i => runSession i.1 i.2)

/-- `main`'s `all_calibrated` flag: the conjunction of the
`calibrateSensor` return values. -/
def allCalibrated (runs : List (LidarCalibrator × Bool)) : Bool :=
  runs.all (fun pr => pr.2)

/-- `main`'s maximum-error loop: `max_error` starts at `0.0f` and takes
the maximum of the sessions' `calculateCalibrationError()` values. -/
def maxError (runs : List (LidarCalibrator × Bool)) : ℚ :=
  runs.foldl (fun m pr => max m (calculateCalibrationError pr.1)) 0

/-- `main`'s integration test verdict:
`max_error < 0.02f && all_calibrated`.  A pure aggregation over the run
results: it returns a `Bool` and leaves every session state untouched. -/
def consistencyCheck (runs : List (LidarCalibrator × Bool)) : Bool :=
  decide (maxError runs < 2/100) && allCalibrated runs

/-- Repeated `calibrateSensor` calls threaded through one session's
state; each input pairs a cloud with that call's `rand()` draw. -/
def runCalls (inputs : List (List Point3D × Nat)) (c : LidarCalibrator) :
    LidarCalibrator :=
  inputs.foldl (fun st i => (calibrateSensor i.1 i.2 st).1) c

/-- The point-cloud filter as the specification states it: keep exactly
the points whose Euclidean norm exceeds a caller-chosen threshold `t`
(compared in squared form; for `t ≥ 0` this is `norm > t`). -/
def filterSpec (t : ℚ) (points : List Point3D) : List Point3D :=
  points.filter (fun p => p.x * p.x + p.y * p.y + p.z * p.z > t * t)

/-! ## Helper lemmas -/

/-- `calibrateSensor` on an empty cloud returns `false` and leaves the
whole object state unchanged (the early-exit branch). -/
theorem calibrateSensor_nil (r : Nat) (c : LidarCalibrator) :
    calibrateSensor [] r c = (c, false) := rfl

/-- `calibrateSensor` on a non-empty cloud takes the success branch. -/
theorem calibrateSensor_cons (p : Point3D) (t : List Point3D) (r : Nat)
    (c : LidarCalibrator) :
    calibrateSensor (p :: t) r c =
      ({ calibration_error_ := 1/100 + (((r % 100 : Nat) : ℚ) / 10000),
         is_calibrated_ := true,
         transformation_matrix_ :=
           { c.transformation_matrix_ with
             m3 := -(((coordSums (p :: t)).1) / ((p :: t).length : ℚ)),
             m7 := -(((coordSums (p :: t)).2.1) / ((p :: t).length : ℚ)),
             m11 := -(((coordSums (p :: t)).2.2) / ((p :: t).length : ℚ)) } },
       true) := rfl

/-- The filtering loop of `processPointCloudFast`, generalised over the
accumulator, is `List.filter`. -/
theorem processPointCloudFast_go (points acc : List Point3D) :
    points.foldl (fun processed p =>
        if farFromOrigin p then processed ++ [p] else processed) acc =
      acc ++ points.filter farFromOrigin := by
  induction points generalizing acc with
  | nil => simp
  | cons p t ih =>
    by_cases h : farFromOrigin p = true
    · simp [List.foldl_cons, h, ih, List.filter_cons]
    · simp only [Bool.not_eq_true] at h
      simp [List.foldl_cons, h, ih, List.filter_cons]

/-- `processPointCloudFast` is `List.filter` with the hard-coded guard. -/
theorem processPointCloudFast_eq_filter (points : List Point3D) :
    processPointCloudFast points = points.filter farFromOrigin := by
  simpa using processPointCloudFast_go points []

/-- Applying the constructor's identity matrix leaves every point
unchanged. -/
theorem transformPointCloud_identityMat (points : List Point3D) :
    transformPointCloud points identityMat = points := by
  induction points with
  | nil => rfl
  | cons p t ih =>
    simp [transformPointCloud, identityMat] at ih ⊢

/-- For a session run from a fresh calibrator, the boolean returned by
`calibrateSensor` coincides with the final `is_calibrated_` flag. -/
theorem runSession_snd_eq (cloud : List Point3D) (r : Nat) :
    (runSession cloud r).2 = (runSession cloud r).1.is_calibrated_ := by
  cases cloud with
  | nil => rfl
  | cons p t => rfl

/-- Every element of `runSessions inputs` has matching success flag and
calibration flag. -/
theorem mem_runSessions_snd_eq (inputs : List (List Point3D × Nat))
    (pr : LidarCalibrator × Bool) (hpr : pr ∈ runSessions inputs) :
    pr.2 = pr.1.is_calibrated_ := by
  obtain ⟨i, _, rfl⟩ := List.mem_map.mp hpr
  exact runSession_snd_eq i.1 i.2

/-- A run of calls that are all given empty clouds leaves the session
state exactly as it was. -/
theorem runCalls_all_nil (inputs : List (List Point3D × Nat))
    (c : LidarCalibrator) (h : ∀ i ∈ inputs, i.1 = ([] : List Point3D)) :
    runCalls inputs c = c := by
  induction inputs generalizing c with
  | nil => rfl
  | cons i t ih =>
    have hi : i.1 = ([] : List Point3D) := h i (List.mem_cons_self i t)
    have ht : ∀ j ∈ t, j.1 = ([] : List Point3D) :=
      fun j hj => h j (List.mem_cons_of_mem i hj)
    simp only [runCalls, List.foldl_cons, hi, calibrateSensor_nil]
    exact ih c ht

/-! ## Claim theorems -/

/-- Claim C1.  The claim states that two runs of `calibrateSensor` on the
same input produce bit-identical results.  The code draws the residual
from the unseeded global `rand()`: making that draw explicit, the same
point cloud with draws 0 and 1 yields different residual errors, so the
calibration path is not a function of the inputs alone. -/
theorem c1_residual_depends_on_rand_draw :
    calculateCalibrationError
        (calibrateSensor [(⟨1, 2, 3⟩ : Point3D)] 0 LidarCalibrator.init).1 ≠
      calculateCalibrationError
        (calibrateSensor [(⟨1, 2, 3⟩ : Point3D)] 1 LidarCalibrator.init).1 := by
  norm_num [calibrateSensor_cons, calculateCalibrationError]

/-- Claim C2.  Calling `calibrateSensor` with an empty point cloud
returns `false` and leaves the entire session state (transform, error,
flag) untouched; for a session that is not yet calibrated the reported
status stays `NOT_CALIBRATED`. -/
theorem c2_empty_cloud_fails_untouched (r : Nat) (c : LidarCalibrator)
    (h : c.is_calibrated_ = false) :
    calibrateSensor [] r c = (c, false) ∧
      getCalibrationStatus (calibrateSensor [] r c).1 = "NOT_CALIBRATED" := by
  refine ⟨rfl, ?_⟩
  simp [calibrateSensor, getCalibrationStatus, h]

/-- Witness for C2 at a fresh session and draw 0. -/
theorem c2_empty_cloud_fails_untouched_witness :
    LidarCalibrator.init.is_calibrated_ = false ∧
      (calibrateSensor [] 0 LidarCalibrator.init =
          (LidarCalibrator.init, false) ∧
        getCalibrationStatus (calibrateSensor [] 0 LidarCalibrator.init).1 =
          "NOT_CALIBRATED") :=
  ⟨rfl, c2_empty_cloud_fails_untouched 0 LidarCalibrator.init rfl⟩

/-- Claim C3.  The integration-test verdict of `main` over any number of
freshly constructed sessions is PASS exactly when every session ends up
calibrated and the maximum residual error is strictly below the 0.02
tolerance.  The aggregation is a pure function of the run results and
returns only a boolean, so no session state is mutated. -/
theorem c3_consistency_check_iff (inputs : List (List Point3D × Nat)) :
    consistencyCheck (runSessions inputs) = true ↔
      ((∀ pr ∈ runSessions inputs, pr.1.is_calibrated_ = true) ∧
        maxError (runSessions inputs) < 2/100) := by
  simp only [consistencyCheck, Bool.and_eq_true, decide_eq_true_eq,
    allCalibrated, List.all_eq_true]
  constructor
  · rintro ⟨hlt, hall⟩
    exact ⟨fun pr hpr =>
      (mem_runSessions_snd_eq inputs pr hpr).symm.trans (hall pr hpr), hlt⟩
  · rintro ⟨hall, hlt⟩
    exact ⟨hlt, fun pr hpr =>
      (mem_runSessions_snd_eq inputs pr hpr).trans (hall pr hpr)⟩

/-- Counterexample to claim C4 as stated: the claim quantifies over the
threshold, but `processPointCloudFast` takes no threshold parameter and
hard-codes 0.1.  With threshold 5 the point (1,0,0) (norm 1) should be
dropped, yet the code keeps it. -/
theorem c4_threshold_not_configurable :
    processPointCloudFast [(⟨1, 0, 0⟩ : Point3D)] ≠
      filterSpec 5 [(⟨1, 0, 0⟩ : Point3D)] := by
  norm_num [processPointCloudFast, farFromOrigin, filterSpec, List.filter]

/-- Claim C4 (amended).  With the threshold fixed at the hard-coded 0.1,
`processPointCloudFast` returns exactly the input points whose Euclidean
norm exceeds 0.1, in the input order (it is `List.filter`), and an empty
input yields an empty result rather than an error; the input list is
never mutated (the function is pure by construction). -/
theorem c4_filter_fixed_threshold (points : List Point3D) :
    processPointCloudFast points = filterSpec (1/10) points ∧
      processPointCloudFast ([] : List Point3D) = [] := by
  refine ⟨?_, rfl⟩
  rw [processPointCloudFast_eq_filter]
  rfl

/-- Claim C5.  `transformPointCloud` with the identity matrix (the one
the constructor installs) returns the input cloud, point for point; in
the exact-arithmetic model the equality is literal. -/
theorem c5_identity_transform_fixes_cloud (points : List Point3D) :
    transformPointCloud points identityMat = points :=
  transformPointCloud_identityMat points

/-- Counterexample to claim C6 as stated: `transformPointCloud` does not
apply the session's current transform — it applies whatever matrix the
caller passes (here a unit x-translation differs from the fresh
session's stored matrix) — and on a not-yet-calibrated session, passing
the session's stored (identity) matrix silently returns the input cloud
with no flag or failure signal. -/
theorem c6_transform_ignores_session_state :
    (transformPointCloud [(⟨1, 2, 3⟩ : Point3D)] { identityMat with m3 := 1 } ≠
        transformPointCloud [(⟨1, 2, 3⟩ : Point3D)]
          LidarCalibrator.init.transformation_matrix_) ∧
      LidarCalibrator.init.is_calibrated_ = false ∧
      transformPointCloud [(⟨1, 2, 3⟩ : Point3D)]
          LidarCalibrator.init.transformation_matrix_ =
        [(⟨1, 2, 3⟩ : Point3D)] := by
  norm_num [transformPointCloud, identityMat, LidarCalibrator.init]

/-- Claim C6 (amended).  `transformPointCloud` is a pure function of the
cloud and the caller-supplied matrix (it reads no session state and
mutates nothing), and it performs no calibration-status check: called
before any calibration with the session's stored matrix, it silently
returns the input cloud unchanged and unflagged. -/
theorem c6_silent_identity_before_calibration (points : List Point3D) :
    LidarCalibrator.init.is_calibrated_ = false ∧
      transformPointCloud points
          LidarCalibrator.init.transformation_matrix_ = points :=
  ⟨rfl, transformPointCloud_identityMat points⟩

/-- Claim C7.  The code has no degeneracy check: a single-point cloud
(fewer than 3 non-colinear points) makes `calibrateSensor` report
success and mark the session CALIBRATED, instead of failing with
`DegenerateGeometryError` — the translation-only update happens
silently. -/
theorem c7_degenerate_cloud_accepted :
    (calibrateSensor [(⟨1, 2, 3⟩ : Point3D)] 0 LidarCalibrator.init).2 =
        true ∧
      (calibrateSensor [(⟨1, 2, 3⟩ : Point3D)] 0
          LidarCalibrator.init).1.is_calibrated_ = true := by
  decide

/-- Claim C8.  A freshly constructed session is NOT_CALIBRATED, holds
the identity transform and zero error, and `calculateCalibrationError`
returns the sentinel 0; the sentinel persists through any sequence of
failed calibration calls (failure occurs exactly on empty clouds, which
leave the state untouched). -/
theorem c8_fresh_state_and_error_sentinel
    (inputs : List (List Point3D × Nat))
    (h : ∀ i ∈ inputs, i.1 = ([] : List Point3D)) :
    LidarCalibrator.init.is_calibrated_ = false ∧
      getCalibrationStatus LidarCalibrator.init = "NOT_CALIBRATED" ∧
      LidarCalibrator.init.transformation_matrix_ = identityMat ∧
      calculateCalibrationError LidarCalibrator.init = 0 ∧
      calculateCalibrationError (runCalls inputs LidarCalibrator.init) = 0 := by
  refine ⟨rfl, rfl, rfl, rfl, ?_⟩
  rw [runCalls_all_nil inputs LidarCalibrator.init h]
  rfl

/-- Witness for C8 with one failed (empty-cloud) call. -/
theorem c8_fresh_state_and_error_sentinel_witness :
    (∀ i ∈ [(([] : List Point3D), 7)], i.1 = ([] : List Point3D)) ∧
      (LidarCalibrator.init.is_calibrated_ = false ∧
        getCalibrationStatus LidarCalibrator.init = "NOT_CALIBRATED" ∧
        LidarCalibrator.init.transformation_matrix_ = identityMat ∧
        calculateCalibrationError LidarCalibrator.init = 0 ∧
        calculateCalibrationError
          (runCalls [(([] : List Point3D), 7)] LidarCalibrator.init) = 0) :=
  ⟨by decide, c8_fresh_state_and_error_sentinel _ (by decide)⟩

/-- Claim C9.  A successful `calibrateSensor` call on a non-empty cloud
rewrites only the translation entries 3, 7, 11 of the stored matrix,
setting them to the negated centroid of the cloud, and leaves all other
entries as they were; in particular, starting from the constructor's
state the rotation block stays the identity. -/
theorem c9_translation_only_update (cloud : List Point3D) (r : Nat)
    (c : LidarCalibrator) (h : cloud ≠ []) :
    ((calibrateSensor cloud r c).1).transformation_matrix_ =
        { c.transformation_matrix_ with
          m3 := -((coordSums cloud).1 / (cloud.length : ℚ)),
          m7 := -((coordSums cloud).2.1 / (cloud.length : ℚ)),
          m11 := -((coordSums cloud).2.2 / (cloud.length : ℚ)) } ∧
      ((calibrateSensor cloud r LidarCalibrator.init).1).transformation_matrix_ =
        { identityMat with
          m3 := -((coordSums cloud).1 / (cloud.length : ℚ)),
          m7 := -((coordSums cloud).2.1 / (cloud.length : ℚ)),
          m11 := -((coordSums cloud).2.2 / (cloud.length : ℚ)) } := by
  cases cloud with
  | nil => exact absurd rfl h
  | cons p t => exact ⟨rfl, rfl⟩

/-- Witness for C9 at a one-point cloud and a fresh session. -/
theorem c9_translation_only_update_witness :
    ([(⟨1, 2, 3⟩ : Point3D)] ≠ ([] : List Point3D)) ∧
      (((calibrateSensor [(⟨1, 2, 3⟩ : Point3D)] 0
            LidarCalibrator.init).1).transformation_matrix_ =
          { LidarCalibrator.init.transformation_matrix_ with
            m3 := -((coordSums [(⟨1, 2, 3⟩ : Point3D)]).1 /
              (([(⟨1, 2, 3⟩ : Point3D)].length : ℚ))),
            m7 := -((coordSums [(⟨1, 2, 3⟩ : Point3D)]).2.1 /
              (([(⟨1, 2, 3⟩ : Point3D)].length : ℚ))),
            m11 := -((coordSums [(⟨1, 2, 3⟩ : Point3D)]).2.2 /
              (([(⟨1, 2, 3⟩ : Point3D)].length : ℚ))) } ∧
        ((calibrateSensor [(⟨1, 2, 3⟩ : Point3D)] 0
            LidarCalibrator.init).1).transformation_matrix_ =
          { identityMat with
            m3 := -((coordSums [(⟨1, 2, 3⟩ : Point3D)]).1 /
              (([(⟨1, 2, 3⟩ : Point3D)].length : ℚ))),
            m7 := -((coordSums [(⟨1, 2, 3⟩ : Point3D)]).2.1 /
              (([(⟨1, 2, 3⟩ : Point3D)].length : ℚ))),
            m11 := -((coordSums [(⟨1, 2, 3⟩ : Point3D)]).2.2 /
              (([(⟨1, 2, 3⟩ : Point3D)].length : ℚ))) }) :=
  ⟨by decide,
    c9_translation_only_update [(⟨1, 2, 3⟩ : Point3D)] 0 LidarCalibrator.init
      (by decide)⟩

/-- Claim C10.  After any successful calibration the stored residual is
0.01 + (r % 100) / 10000 for the run's draw r, which lies in
[0.01, 0.02) for every r: a calibrated sensor's individual error is
always strictly below the 0.02 fleet tolerance. -/
theorem c10_error_within_tolerance (cloud : List Point3D) (r : Nat)
    (c : LidarCalibrator) (h : cloud ≠ []) :
    1/100 ≤ calculateCalibrationError (calibrateSensor cloud r c).1 ∧
      calculateCalibrationError (calibrateSensor cloud r c).1 < 2/100 := by
  cases cloud with
  | nil => exact absurd rfl h
  | cons p t =>
    have hr : ((r % 100 : Nat) : ℚ) ≤ 99 := by
      exact_mod_cast Nat.le_of_lt_succ (Nat.mod_lt r (by norm_num))
    have hr0 : (0 : ℚ) ≤ ((r % 100 : Nat) : ℚ) := Nat.cast_nonneg _
    constructor
    · show (1 : ℚ)/100 ≤ 1/100 + ((r % 100 : Nat) : ℚ) / 10000
      linarith
    · show (1 : ℚ)/100 + ((r % 100 : Nat) : ℚ) / 10000 < 2/100
      linarith

/-- Witness for C10 at a one-point cloud, draw 5, fresh session. -/
theorem c10_error_within_tolerance_witness :
    ([(⟨1, 2, 3⟩ : Point3D)] ≠ ([] : List Point3D)) ∧
      (1/100 ≤ calculateCalibrationError
          (calibrateSensor [(⟨1, 2, 3⟩ : Point3D)] 5
            LidarCalibrator.init).1 ∧
        calculateCalibrationError
          (calibrateSensor [(⟨1, 2, 3⟩ : Point3D)] 5
            LidarCalibrator.init).1 < 2/100) :=
  ⟨by decide,
    c10_error_within_tolerance [(⟨1, 2, 3⟩ : Point3D)] 5 LidarCalibrator.init
      (by decide)⟩
